import Mathlib

/-!
Shallow embedding of the `upstream` command-line sharding client
(`src/upstream/clitool.py` and `src/upstream/streamer.py`).

Bytes are modelled as `Nat`, byte strings as `List Nat`, Python strings as
Lean `String`.  Python exceptions are modelled with an explicit error type
`PyErr` and `Except` results.  The filesystem is an association list of
file paths to contents plus a set of directory paths; the HTTP transport is
a function from URL to response, and the download routine additionally
records the list of URLs it actually fetched, so that "no network I/O was
performed" is expressible as that list being empty.
-/

/-- Errors a run of the embedded code can signal.  `chunkError`, `fileError`,
`responseError` and `connectError` come from `upstream/exc.py` (imported by
both source files); `attributeError`, `valueError`, `indexError` and
`zeroDivisionError` are Python built-in exceptions raised by the code.
`invalidSizeFormat` and `invalidShardSize` are error names used by the spec;
no code in the repository defines or raises them — they exist here only so
that statements about them can be written down. -/
inductive PyErr where
  | chunkError
  | fileError (msg : String)
  | responseError (msg : String)
  | connectError (msg : String)
  | attributeError
  | valueError
  | indexError
  | zeroDivisionError
  | invalidSizeFormat
  | invalidShardSize
deriving DecidableEq

/-- Modelled from the spec (upstream/file.py is not in src/):
`SizeHelpers.kib_to_bytes` multiplies a kibibyte count by 1024. -/
def SizeHelpers.kib_to_bytes (n : Nat) : Nat := n * 1024

/-- Modelled from the spec (upstream/file.py is not in src/):
`SizeHelpers.mib_to_bytes` multiplies a mebibyte count by 1024². -/
def SizeHelpers.mib_to_bytes (n : Nat) : Nat := n * 1024 * 1024

/-- Value of a list of decimal digit characters, most significant first. -/
def natOfDigits (l : List Char) : Nat :=
  l.foldl (fun a c => a * 10 + (c.toNat - 48)) 0

/-- Python `int(s)` restricted to the unsigned decimal case exercised by the
claims: succeeds on a non-empty all-digit string, otherwise raises
`ValueError`.  (Python also accepts signs, surrounding whitespace and
underscores; none of those inputs reach `int` in the claims considered.) -/
def pyInt (l : List Char) : Except PyErr Nat :=
  if l ≠ [] ∧ l.all Char.isDigit then .ok (natOfDigits l) else .error .valueError

/-- Python `s.isdigit()` (ASCII case): non-empty and all characters digits. -/
def pyIsdigit (l : List Char) : Bool :=
  !l.isEmpty && l.all Char.isDigit

/-- Model of `clitool.parse_shard_size` (src/upstream/clitool.py lines 90–112).
All-digit strings are returned as bytes; otherwise the last character is
lowercased and matched against `b`/`k`/`m`; an unrecognised suffix makes the
function fall through its bare `return`, i.e. the call evaluates to `None`
(`.ok none`) without raising.  Indexing `size[-1]` on the empty string
raises `IndexError`. -/
def parse_shard_size (size : String) : Except PyErr (Option Nat) :=
  let s := size.toList
  if pyIsdigit s then .ok (some (natOfDigits s))
  else
    match s.getLast? with
    | none => .error .indexError
    | some c =>
      let last := c.toLower
      let number := s.dropLast
      if last ∉ ['b', 'k', 'm'] then .ok none
      else if last = 'b' then (pyInt number).map some
      else if last = 'k' then (pyInt number).map (fun n => some (SizeHelpers.kib_to_bytes n))
      else (pyInt number).map (fun n => some (SizeHelpers.mib_to_bytes n))

/-- The loop body of `clitool.calculate_shards` (src/upstream/clitool.py
lines 118–125): `num` iterations appending `(start, stop)` and advancing
both cursors by the shard size. -/
def shard_loop : Nat → Nat → Nat → Nat → List (Nat × Nat)
  | 0, _, _, _ => []
  | n + 1, start, stop, s => (start, stop) :: shard_loop n stop (stop + s) s

/-- A positive IEEE-754 binary64 value, unpacked: the represented number is
`m * 2 ^ (e - 52)`.  After rounding, `2 ^ 52 ≤ m ≤ 2 ^ 53` (the pair is not
re-normalised when rounding carries up to `2 ^ 53`; the represented value is
still exact), or `m = 0` for the value zero. -/
structure F64 where
  m : Nat
  e : Int
deriving DecidableEq

/-- Test `p / q < 2 ^ c` for naturals `p`, `q ≥ 1` and an integer `c`,
using only integer arithmetic. -/
def ratLtPow2 (p q : Nat) (c : Int) : Bool :=
  if 0 ≤ c then p < q * 2 ^ c.toNat else p * 2 ^ (-c).toNat < q

/-- Structurally recursive `⌊log2⌋` (fuel-counted so that kernel reduction
works); `natLog2Aux fuel n` computes `⌊log2 n⌋` whenever `n ≤ 2 ^ fuel`. -/
def natLog2Aux : Nat → Nat → Nat
  | 0, _ => 0
  | fuel + 1, n => if n < 2 then 0 else natLog2Aux fuel (n / 2) + 1

/-- Floor of the base-2 logarithm of a natural number (0 for 0 and 1). -/
def natLog2 (n : Nat) : Nat := natLog2Aux n n

/-- Round `(p / q) * 2 ^ t` (with `q ≥ 1`) to the nearest IEEE-754 binary64
value, ties to even — the rounding CPython applies both when converting an
int to float and as the correctly rounded result of a float division.
Exponent range is unbounded (no overflow or subnormal handling): for the
spec's uint64 file and shard sizes every value met here is a positive
normal number, so this models Python exactly on that domain. -/
def roundF64 (p q : Nat) (t : Int) : F64 :=
  let e0 : Int := (natLog2 p : Int) - (natLog2 q : Int) + t
  let e : Int := if ratLtPow2 p q (e0 - t) then e0 - 1 else e0
  let k : Int := 52 - e + t
  let P : Nat := if 0 ≤ k then p * 2 ^ k.toNat else p
  let Q : Nat := if 0 ≤ k then q else q * 2 ^ (-k).toNat
  let m0 : Nat := P / Q
  let r : Nat := P % Q
  let m : Nat :=
    if 2 * r < Q then m0
    else if Q < 2 * r then m0 + 1
    else if m0 % 2 = 0 then m0 else m0 + 1
  ⟨m, e⟩

/-- CPython `float(n)` for a non-negative int `n`: correctly rounded
binary64 conversion. -/
def pyFloat (n : Nat) : F64 := roundF64 n 1 0

/-- IEEE-754 binary64 division `a / b` (for `b ≠ 0`): the correctly rounded
quotient `(a.m / b.m) * 2 ^ (a.e - b.e)`. -/
def pyFloatDiv (a b : F64) : F64 := roundF64 a.m b.m (a.e - b.e)

/-- Python `math.ceil` of a non-negative binary64 value: the exact ceiling
of the represented number `m * 2 ^ (e - 52)`. -/
def mathCeilF64 (x : F64) : Nat :=
  if 52 ≤ x.e then x.m * 2 ^ (x.e - 52).toNat
  else (x.m + 2 ^ (52 - x.e).toNat - 1) / 2 ^ (52 - x.e).toNat

/-- Shard count of `clitool.calculate_shards`:
`math.ceil(file_size / float(shard_size))`, with the int-to-float
conversions, the float division and `math.ceil` each modelled at IEEE-754
binary64 precision.  For file sizes at or above `2 ^ 53` the rounded
division can fall below the exact quotient, making this one less than the
exact ceiling. -/
def num_shards (file_size shard_size : Nat) : Nat :=
  mathCeilF64 (pyFloatDiv (pyFloat file_size) (pyFloat shard_size))

/-- Model of `clitool.calculate_shards` (src/upstream/clitool.py lines 115–131).
With `shard_size == 0` the expression `file_size / float(shard_size)`
raises `ZeroDivisionError` before any range is planned; otherwise the loop
produces the list of nominal `(start, end)` ranges. -/
def calculate_shards (file_size shard_size : Nat) : Except PyErr (List (Nat × Nat)) :=
  if shard_size = 0 then .error .zeroDivisionError
  else .ok (shard_loop (num_shards file_size shard_size) 0 shard_size shard_size)

/-- The range list `calculate_shards` returns in its non-error case. -/
def shard_ranges (file_size shard_size : Nat) : List (Nat × Nat) :=
  shard_loop (num_shards file_size shard_size) 0 shard_size shard_size

/-- Modelled from the spec (upstream/chunk.py is not in src/): a Chunk (a.k.a.
Shard) carries the server-assigned content hash, the externally addressable
URI, an optional decryption key and an optional display filename.  The
fields read by the code in src/ are `filehash`, `uri` and `filename`. -/
structure Chunk where
  filehash : String
  uri : String
  decryptkey : String
  filename : Option String
deriving DecidableEq

/-- An HTTP response as seen by `Streamer.download`: status code and raw
body bytes (`iter_content` yields exactly the body, in chunks). -/
structure HttpResp where
  status : Nat
  body : List Nat
deriving DecidableEq

/-- Ambient state threaded through the streamer: the server base URL, the
current working directory (`os.getcwd()`), the home directory used by
`os.path.expanduser`, and the HTTP transport as a function from URL to
response. -/
structure Env where
  server : String
  cwd : String
  home : String
  http : String → HttpResp

/-- The local filesystem: files with their contents, and the set of
existing directories. -/
structure FS where
  files : List (String × List Nat)
  dirs : List String
deriving DecidableEq

/-- Python `os.path.isfile`. -/
def FS.isfile (fs : FS) (p : String) : Bool :=
  fs.files.any (fun e => e.1 = p)

/-- Python `os.path.isdir`. -/
def FS.isdir (fs : FS) (p : String) : Bool :=
  fs.dirs.contains p

/-- Python `os.path.exists`: a file or a directory at the path. -/
def FS.pathExists (fs : FS) (p : String) : Bool :=
  fs.isfile p || fs.isdir p

/-- Contents of the file at a path (empty when absent; callers guard with
`isfile`). -/
def FS.read (fs : FS) (p : String) : List Nat :=
  ((fs.files.find? (fun e => e.1 = p)).map Prod.snd).getD []

/-- Opening a path with mode `wb` and writing `content`: the previous
contents, if any, are discarded. -/
def FS.writeFile (fs : FS) (p : String) (content : List Nat) : FS :=
  ⟨(p, content) :: fs.files.filter (fun e => e.1 ≠ p), fs.dirs⟩

/-- Python `posixpath.split`: the tail is the longest suffix without a
separator, the head is the rest with trailing separators stripped unless it
consists only of separators. -/
def pySplit (p : String) : String × String :=
  let l := p.toList
  let tail := (l.reverse.takeWhile (fun c => c ≠ '/')).reverse
  let head := l.take (l.length - tail.length)
  let head2 :=
    if head.all (fun c => c = '/') then head
    else (head.reverse.dropWhile (fun c => c = '/')).reverse
  (String.mk head2, String.mk tail)

/-- Python `posixpath.join` for the two-argument case. -/
def pyJoin (a b : String) : String :=
  if b.toList.head? = some '/' then b
  else if a = "" ∨ a.toList.getLast? = some '/' then a ++ b
  else a ++ "/" ++ b

/-- Python `os.path.expanduser`, for paths that do not name another user:
a leading `~` is replaced by the home directory, anything else is returned
unchanged. -/
def pyExpanduser (home p : String) : String :=
  if p.toList.head? = some '~' then home ++ String.mk (p.toList.drop 1) else p

/-- The URL `Streamer.download` fetches:
`"%s/api/download/%s" % (self.server, chunk.uri)`. -/
def download_url (env : Env) (chunk : Chunk) : String :=
  env.server ++ "/api/download/" ++ chunk.uri

/-- Outcome of a `Streamer.download` call: the returned value or raised
error (`True` on a 200 response, `None` — Python falls off the end of the
function — otherwise), the filesystem afterwards, and the list of URLs
fetched over HTTP during the call. -/
structure DownloadResult where
  ret : Except PyErr (Option Bool)
  fs : FS
  gets : List String

/-- Model of `Streamer.download` (src/upstream/streamer.py lines 73–112).
An empty `filehash` fails the `assert chunk.filehash` and raises
`ChunkError`.  A truthy `dest` must not exist and its directory part (the
working directory when there is none) must be a directory, else `FileError`
is raised with the corresponding message.  A falsy `dest` (None or the
empty string) reaches `os.abspath(os.getcwd())`, and the `os` module has no
attribute `abspath` (the function lives at `os.path.abspath`), so Python
raises `AttributeError` there.  Only after the path checks is the GET
issued; on a 200 the body is written to the save path in mode `wb` and
`True` is returned, on any other status the function returns `None`. -/
def Streamer.download (env : Env) (fs : FS) (chunk : Chunk) (dest : Option String)
    (chunksize : Nat) : DownloadResult :=
  if chunk.filehash = "" then ⟨.error .chunkError, fs, []⟩
  else
    match dest with
    | some d =>
      if d = "" then ⟨.error .attributeError, fs, []⟩
      else if fs.pathExists d then ⟨.error (.fileError (d ++ " already exists")), fs, []⟩
      else
        let sp := pySplit d
        let path := if sp.1 = "" then env.cwd else sp.1
        if fs.isdir path = false then
          ⟨.error (.fileError (path ++ " is not a valid path")), fs, []⟩
        else
          let savepath := pyJoin path sp.2
          let url := download_url env chunk
          let r := env.http url
          let _ := chunksize
          if r.status = 200 then ⟨.ok (some true), fs.writeFile savepath r.body, [url]⟩
          else ⟨.ok none, fs, [url]⟩
    | none => ⟨.error .attributeError, fs, []⟩

/-- Model of `Streamer._upload_check_path` (src/upstream/streamer.py lines 114–126):
expand the user path and require it to be an existing regular file. -/
def Streamer.upload_check_path (env : Env) (fs : FS) (filepath : String) :
    Except PyErr String :=
  let expandedpath := pyExpanduser env.home filepath
  if fs.isfile expandedpath then .ok expandedpath
  else .error (.fileError (filepath ++ " not a file or not found"))

/-- The bytes `Streamer._upload_form_encoded` (src/upstream/streamer.py
lines 128–144) places in the `file` field of the multipart/form-data POST
body: the entire contents of the validated file — the method takes no
offset or size and `open(validpath, 'rb')` streams the whole file. -/
def Streamer.upload_transmitted (env : Env) (fs : FS) (filepath : String) :
    Except PyErr (List Nat) :=
  match Streamer.upload_check_path env fs filepath with
  | .error e => .error e
  | .ok validpath => .ok (fs.read validpath)

/-- The status-code classification of `Streamer.upload`
(src/upstream/streamer.py lines 56–71), parameterised by `from_json`, the
deserialiser of the 201 JSON body (`Chunk.from_json`, whose definition is
in upstream/chunk.py, outside src/).  The branches are tested in source
order: 404, 402, 500, 201, then the catch-all. -/
def Streamer.upload_classify {α : Type} (from_json : String → α)
    (status : Nat) (reason : String) (text : String) : Except PyErr α :=
  if status = 404 then .error (.responseError "API call not found.")
  else if status = 402 then .error (.responseError "Payment required.")
  else if status = 500 then .error (.responseError "Server error.")
  else if status = 201 then .ok (from_json text)
  else .error (.responseError ("Received status code " ++ toString status ++ " " ++ reason))

/-- Substring test: does `hay` contain `needle` as a contiguous substring? -/
def strContainsSub (needle hay : String) : Bool :=
  (List.range (hay.toList.length + 1)).any
    (fun i => needle.toList.isPrefixOf (hay.toList.drop i))

/-- Written from the spec's words for the upload claim: the byte slice
`[startOffset, startOffset + shardSize)` of the file, clamped to
end-of-file. -/
def spec_clamped_slice (file : List Nat) (startOffset shardSize : Nat) : List Nat :=
  (file.drop startOffset).take shardSize

-- Closed form of the planner loop.
theorem shard_loop_eq_map (n start s : Nat) :
    shard_loop n start (start + s) s
      = (List.range n).map (fun i => (start + i * s, start + (i + 1) * s)) := by
  induction n generalizing start with
  | zero => rfl
  | succ n ih =>
    rw [List.range_succ_eq_map]
    simp only [shard_loop, List.map_cons, List.map_map]
    congr 1
    · simp
    · rw [ih (start + s)]
      apply List.map_congr_left
      intro a _
      simp only [Function.comp]
      rw [Prod.ext_iff]
      constructor <;> · simp; ring

theorem shard_ranges_eq_map (F s : Nat) :
    shard_ranges F s
      = (List.range (num_shards F s)).map (fun i => (i * s, (i + 1) * s)) := by
  have h := shard_loop_eq_map (num_shards F s) 0 s
  simp only [Nat.zero_add] at h
  simpa [shard_ranges] using h

-- The telescoping sum of clamped range lengths.
theorem clamped_sum_eq_min (s F : Nat) :
    ∀ n, (((List.range n).map (fun i => (i * s, (i + 1) * s))).map
        (fun p => min p.2 F - p.1)).sum = min (n * s) F := by
  intro n
  induction n with
  | zero => simp
  | succ n ih =>
    rw [List.range_succ]
    simp only [List.map_append, List.sum_append, ih, List.map_cons, List.map_nil,
      List.sum_cons, List.sum_nil]
    rw [Nat.succ_mul]
    omega

-- Index-wise description of the planned ranges.
theorem shard_ranges_getElem (F s i a b : Nat)
    (h : (shard_ranges F s)[i]? = some (a, b)) :
    i < num_shards F s ∧ a = i * s ∧ b = i * s + s := by
  rw [shard_ranges_eq_map] at h
  simp only [List.getElem?_map] at h
  by_cases hi : i < num_shards F s
  · rw [List.getElem?_range hi] at h
    simp only [Option.map_some', Option.some.injEq, Prod.mk.injEq] at h
    refine ⟨hi, h.1.symm, ?_⟩
    rw [← h.2, Nat.succ_mul]
  · have hnone : (List.range (num_shards F s))[i]? = none := by
      rw [List.getElem?_eq_none]
      simpa using Nat.le_of_not_lt hi
    rw [hnone] at h
    simp at h

/-- C3 counterexample: at fileSize `2^53 + 1`, shardSize `1`, the float
shard count `math.ceil(file_size / float(shard_size))` is `2^53` — the
int-to-float conversion rounds `2^53 + 1` down to `2^53` (ties to even) —
one less than the exact ceiling `2^53 + 1` the claim requires, so the
planner returns too few ranges and their clamped lengths sum to `2^53`,
not to the file size. -/
theorem c3_float_shard_count_counterexample :
    num_shards (2 ^ 53 + 1) 1 = 2 ^ 53
    ∧ (shard_ranges (2 ^ 53 + 1) 1).length ≠ 2 ^ 53 + 1
    ∧ ((shard_ranges (2 ^ 53 + 1) 1).map
        (fun p => min p.2 (2 ^ 53 + 1) - p.1)).sum ≠ 2 ^ 53 + 1 := by
  have hn : num_shards (2 ^ 53 + 1) 1 = 2 ^ 53 := by decide
  refine ⟨hn, ?_, ?_⟩
  · rw [shard_ranges_eq_map, hn]
    simp only [List.length_map, List.length_range]
    norm_num
  · rw [shard_ranges_eq_map, hn, clamped_sum_eq_min]
    norm_num

/-- C3 amended: for every `fileSize > 0` and `shardSize > 0`,
`calculate_shards` returns `math.ceil(fileSize / float(shardSize))` byte
ranges — a count the binary64 rounding can leave one below the exact
`ceil(fileSize / shardSize)` — that are non-empty, contiguous,
non-overlapping and in ascending order; the lengths obtained after clamping
each range's end to `fileSize` sum to `min(count * shardSize, fileSize)`,
which is exactly `fileSize` whenever `count * shardSize ≥ fileSize`. -/
theorem c3_planner_ranges_amended (F s : Nat) (hF : 0 < F) (hs : 0 < s) :
    calculate_shards F s = .ok (shard_ranges F s)
    ∧ (shard_ranges F s).length = num_shards F s
    ∧ (∀ i a b : Nat, (shard_ranges F s)[i]? = some (a, b) → a < b)
    ∧ (∀ i a b c d : Nat, (shard_ranges F s)[i]? = some (a, b) →
        (shard_ranges F s)[i + 1]? = some (c, d) → b = c)
    ∧ (∀ i j a b c d : Nat, i < j → (shard_ranges F s)[i]? = some (a, b) →
        (shard_ranges F s)[j]? = some (c, d) → b ≤ c)
    ∧ ((shard_ranges F s).map (fun p => min p.2 F - p.1)).sum
        = min (num_shards F s * s) F
    ∧ (F ≤ num_shards F s * s →
        ((shard_ranges F s).map (fun p => min p.2 F - p.1)).sum = F) := by
  refine ⟨?_, ?_, ?_, ?_, ?_, ?_, ?_⟩
  · rw [calculate_shards, if_neg (by omega)]
    rfl
  · rw [shard_ranges_eq_map]
    simp
  · intro i a b h
    obtain ⟨-, ha, hb⟩ := shard_ranges_getElem F s i a b h
    omega
  · intro i a b c d h1 h2
    obtain ⟨-, -, hb⟩ := shard_ranges_getElem F s i a b h1
    obtain ⟨-, hc, -⟩ := shard_ranges_getElem F s (i + 1) c d h2
    have hsm : (i + 1) * s = i * s + s := Nat.succ_mul i s
    omega
  · intro i j a b c d hij h1 h2
    obtain ⟨-, -, hb⟩ := shard_ranges_getElem F s i a b h1
    obtain ⟨-, hc, -⟩ := shard_ranges_getElem F s j c d h2
    have hmul : (i + 1) * s ≤ j * s := Nat.mul_le_mul_right s hij
    have hsm : (i + 1) * s = i * s + s := Nat.succ_mul i s
    omega
  · rw [shard_ranges_eq_map, clamped_sum_eq_min]
  · intro hcov
    rw [shard_ranges_eq_map, clamped_sum_eq_min]
    exact min_eq_right hcov

-- Witness for C3 at fileSize 10, shardSize 4 (where the float pipeline is
-- exact and the computed count 3 covers the file).
theorem c3_planner_ranges_amended_witness :
    (0 < 10 ∧ 0 < 4 ∧ 10 ≤ num_shards 10 4 * 4)
    ∧ ((shard_ranges 10 4).map (fun p => min p.2 10 - p.1)).sum = 10 :=
  ⟨⟨by decide, by decide, by decide⟩,
    (c3_planner_ranges_amended 10 4 (by decide) (by decide)).2.2.2.2.2.2 (by decide)⟩

/-- C8 counterexample: with `shardSize == 0` the planner raises
`ZeroDivisionError` (from `file_size / float(shard_size)`), not the
`InvalidShardSize` error the claim names — no such error exists in the
code. -/
theorem c8_zero_shard_size_counterexample :
    calculate_shards 10 0 = .error .zeroDivisionError
    ∧ calculate_shards 10 0 ≠ .error .invalidShardSize := by
  refine ⟨rfl, ?_⟩
  intro h
  simp [calculate_shards] at h

/-- C8 amended: for every file size, a call with `shardSize == 0` raises
`ZeroDivisionError` at the shard-count division, before any range planning;
no range list is computed.  (The claim's `InvalidShardSize` does not exist
in the code.) -/
theorem c8_amended_zero_shard_size (F : Nat) :
    calculate_shards F 0 = .error .zeroDivisionError := by
  simp [calculate_shards]

/-- C6 counterexample: `parse_shard_size "100x"` returns `None` (no
exception at all), instead of failing with the `InvalidSizeFormat` the
claim requires. -/
theorem c6_parse_100x_counterexample :
    parse_shard_size "100x" = .ok none
    ∧ parse_shard_size "100x" ≠ .error .invalidSizeFormat := by
  refine ⟨rfl, ?_⟩
  intro h
  rw [show parse_shard_size "100x" = Except.ok none from rfl] at h
  exact Except.noConfusion h

/-- C6 amended: for every input string whose last character is not a
decimal digit and not one of the suffixes b/k/m (case-insensitive), the
parser silently returns `None` — it neither raises `InvalidSizeFormat`
(which does not exist in the code) nor any other error, leaving the caller
with an unusable shard size. -/
theorem c6_amended_bad_suffix_returns_none (s : String) (c : Char)
    (h1 : s.toList.getLast? = some c) (h2 : c.isDigit = false)
    (h3 : c.toLower ∉ ['b', 'k', 'm']) :
    parse_shard_size s = .ok none := by
  have hc : c ∈ s.toList := List.mem_of_getLast?_eq_some h1
  have hall : s.toList.all Char.isDigit = false := by
    rw [List.all_eq_false]
    exact ⟨c, hc, by simp [h2]⟩
  have hps : pyIsdigit s.toList = false := by
    rw [pyIsdigit, hall, Bool.and_false]
  rw [parse_shard_size]
  simp only [hps, Bool.false_eq_true, if_false, h1]
  rw [if_pos h3]

-- Witness for C6 at the input "100x".
theorem c6_amended_witness :
    ("100x".toList.getLast? = some 'x' ∧ 'x'.isDigit = false
      ∧ 'x'.toLower ∉ ['b', 'k', 'm'])
    ∧ parse_shard_size "100x" = .ok none :=
  ⟨⟨by decide, by decide, by decide⟩,
    c6_amended_bad_suffix_returns_none "100x" 'x' (by decide) (by decide) (by decide)⟩

/-- C5 counterexample: on a 500 upload response with body "boom", the code
raises `ResponseError("Server error.")` — a fixed message that contains
neither the numeric status 500 nor the server-supplied body text, contrary
to the claim that the error carries status 500 and the body unchanged. -/
theorem c5_500_message_counterexample :
    Streamer.upload_classify id 500 "Internal Server Error" "boom"
        = .error (.responseError "Server error.")
    ∧ strContainsSub "500" "Server error." = false
    ∧ strContainsSub "boom" "Server error." = false := by
  refine ⟨rfl, ?_, ?_⟩ <;> rfl

/-- C5 amended: upload response classification — 201 yields the result of
`Chunk.from_json` on the JSON body; 402 raises
`ResponseError("Payment required.")`; 404 raises
`ResponseError("API call not found.")`; 500 raises the fixed
`ResponseError("Server error.")`, which carries neither the status number
nor the body text; and any other status raises a `ResponseError` whose
message carries the numeric status and the reason phrase (but not the
body text). -/
theorem c5_amended_upload_classification (α : Type) (from_json : String → α)
    (reason text : String) :
    Streamer.upload_classify from_json 404 reason text
        = .error (.responseError "API call not found.")
    ∧ Streamer.upload_classify from_json 402 reason text
        = .error (.responseError "Payment required.")
    ∧ Streamer.upload_classify from_json 500 reason text
        = .error (.responseError "Server error.")
    ∧ Streamer.upload_classify from_json 201 reason text = .ok (from_json text)
    ∧ (∀ status : Nat, status ≠ 404 → status ≠ 402 → status ≠ 500 → status ≠ 201 →
        Streamer.upload_classify from_json status reason text
          = .error (.responseError
              ("Received status code " ++ toString status ++ " " ++ reason))) := by
  refine ⟨rfl, rfl, rfl, rfl, ?_⟩
  intro status h404 h402 h500 h201
  rw [Streamer.upload_classify, if_neg h404, if_neg h402, if_neg h500, if_neg h201]

-- Witness for C5 at a 503 response.
theorem c5_amended_witness :
    Streamer.upload_classify id 503 "Service Unavailable" "busy"
      = .error (.responseError "Received status code 503 Service Unavailable") :=
  (c5_amended_upload_classification String id "Service Unavailable" "busy").2.2.2.2
    503 (by decide) (by decide) (by decide) (by decide)

/-- The filesystem used by the C2 evaluation: one file `f` of eight bytes. -/
def c2_fs : FS := ⟨[("f", [0, 1, 2, 3, 4, 5, 6, 7])], ["/"]⟩

/-- The environment used by the C2 evaluation. -/
def c2_env : Env := ⟨"http://srv", "/cwd", "/home", fun _ => ⟨200, []⟩⟩

/-- C2: evaluation of the code at the failing input.  For an eight-byte
file and the shard parameters `startOffset = 0`, `shardSize = 4` that
`clitool.upload` plans, `Streamer.upload` places the entire file in the
multipart body (`_upload_form_encoded` opens the whole file and takes no
offset or size arguments), which differs from the claimed clamped slice
`[startOffset, startOffset + shardSize)`. -/
theorem c2_upload_transmits_whole_file_not_slice :
    Streamer.upload_transmitted c2_env c2_fs "f" = .ok [0, 1, 2, 3, 4, 5, 6, 7]
    ∧ spec_clamped_slice [0, 1, 2, 3, 4, 5, 6, 7] 0 4 = [0, 1, 2, 3]
    ∧ ([0, 1, 2, 3, 4, 5, 6, 7] : List Nat) ≠ [0, 1, 2, 3] :=
  ⟨rfl, rfl, by decide⟩

/-- The directory part `Streamer.download` validates for an explicit
destination (src/upstream/streamer.py lines 94–96): the head of
`os.path.split(dest)`, or the working directory when that head is empty. -/
def dest_dir (env : Env) (d : String) : String :=
  if (pySplit d).1 = "" then env.cwd else (pySplit d).1

/-- C9: for every call to `Streamer.download` with no destination path and
a chunk whose filehash is non-empty, the call raises `AttributeError`
(`os.abspath` does not exist) with no HTTP request issued and the
filesystem untouched; the documented default-destination behaviour is
unreachable. -/
theorem c9_no_dest_raises_attribute_error (env : Env) (fs : FS) (chunk : Chunk)
    (csz : Nat) (h : chunk.filehash ≠ "") :
    Streamer.download env fs chunk none csz = ⟨.error .attributeError, fs, []⟩ := by
  rw [Streamer.download, if_neg h]

/-- A small filesystem with one directory, used in concrete evaluations. -/
def fs0 : FS := ⟨[], ["/w"]⟩

/-- A chunk with hash and URI `h1`, used in concrete evaluations. -/
def chunkA : Chunk := ⟨"h1", "h1", "", none⟩

/-- An environment whose transport answers every URL with the given status
and body. -/
def env0 (st : Nat) (b : List Nat) : Env :=
  ⟨"http://srv", "/cwd", "/home", fun _ => ⟨st, b⟩⟩

theorem c9_no_dest_witness :
    Streamer.download (env0 200 [1]) fs0 chunkA none 7
      = ⟨.error .attributeError, fs0, []⟩ :=
  c9_no_dest_raises_attribute_error (env0 200 [1]) fs0 chunkA 7 (by decide)

/-- C7: for every `Streamer.download` call with a valid chunk and an
explicit destination path, an already-existing destination raises
`FileError("<dest> already exists")` and a missing containing directory
raises `FileError("<dir> is not a valid path")` — distinguishable messages —
and in both cases the result records no HTTP request and an unchanged
filesystem, so the error occurs before any network I/O. -/
theorem c7_dest_validation_before_network (env : Env) (fs : FS) (chunk : Chunk)
    (d : String) (csz : Nat) (hh : chunk.filehash ≠ "") (hd : d ≠ "") :
    (fs.pathExists d = true →
      Streamer.download env fs chunk (some d) csz
        = ⟨.error (.fileError (d ++ " already exists")), fs, []⟩)
    ∧ (fs.pathExists d = false → fs.isdir (dest_dir env d) = false →
      Streamer.download env fs chunk (some d) csz
        = ⟨.error (.fileError (dest_dir env d ++ " is not a valid path")), fs, []⟩) := by
  constructor
  · intro hex
    rw [Streamer.download, if_neg hh]
    dsimp only
    rw [if_neg hd, if_pos hex]
  · intro hex hdir
    rw [Streamer.download, if_neg hh]
    dsimp only
    rw [if_neg hd, if_neg (by rw [hex]; exact Bool.false_ne_true)]
    rw [dest_dir] at hdir
    rw [if_pos hdir, dest_dir]

/-- Filesystem for the C7 witness: the destination file already exists. -/
def c7_fs : FS := ⟨[("/w/out", [9])], ["/w"]⟩

theorem c7_dest_validation_witness :
    Streamer.download (env0 200 [1]) c7_fs chunkA (some "/w/out") 5
      = ⟨.error (.fileError "/w/out already exists"), c7_fs, []⟩ :=
  (c7_dest_validation_before_network (env0 200 [1]) c7_fs chunkA "/w/out" 5
    (by decide) (by decide)).1 (by decide)

/-- C10: for every `Streamer.download` call, if the transport's response
for the download URL has a status other than 200, the filesystem after the
call equals the filesystem before it — the destination file is neither
created nor written. -/
theorem c10_non200_leaves_fs_unchanged (env : Env) (fs : FS) (chunk : Chunk)
    (dest : Option String) (csz : Nat)
    (h : (env.http (download_url env chunk)).status ≠ 200) :
    (Streamer.download env fs chunk dest csz).fs = fs := by
  cases dest with
  | none =>
    rw [Streamer.download]
    split
    · rfl
    · rfl
  | some d =>
    rw [Streamer.download]
    dsimp only
    repeat' split
    all_goals first
      | rfl
      | exact absurd ‹(env.http (download_url env chunk)).status = 200› h

theorem c10_non200_witness :
    (Streamer.download (env0 500 [1, 2]) fs0 chunkA (some "/w/out") 3).fs = fs0 :=
  c10_non200_leaves_fs_unchanged (env0 500 [1, 2]) fs0 chunkA (some "/w/out") 3
    (by decide)

/-- C4 counterexample: a download whose GET returns 404 issues the request
and then returns `None` — Python falls off the end of the function — with
no exception raised, contradicting the claim that every non-200 response
raises a `ResponseError`. -/
theorem c4_non200_returns_none_counterexample :
    (Streamer.download (env0 404 []) fs0 chunkA (some "/w/out") 1024).ret
        = .ok none
    ∧ (Streamer.download (env0 404 []) fs0 chunkA (some "/w/out") 1024).gets
        = [download_url (env0 404 []) chunkA]
    ∧ ((env0 404 []).http (download_url (env0 404 []) chunkA)).status = 404 :=
  ⟨rfl, rfl, rfl⟩

/-- C4 amended: `Streamer.download` returns `True` only when the GET
returned status 200; a non-200 response makes it return `None` without
raising any error (its docstring documents "True if success, else None").
No `ResponseError` is raised on non-200 download statuses. -/
theorem c4_amended_non200_returns_none (env : Env) (fs : FS) (chunk : Chunk)
    (dest : Option String) (csz : Nat) :
    ((Streamer.download env fs chunk dest csz).ret = .ok (some true) →
        (env.http (download_url env chunk)).status = 200)
    ∧ (download_url env chunk ∈ (Streamer.download env fs chunk dest csz).gets →
        (env.http (download_url env chunk)).status ≠ 200 →
        (Streamer.download env fs chunk dest csz).ret = .ok none) := by
  cases dest with
  | none =>
    rw [Streamer.download]
    split
    · exact ⟨fun hret => Except.noConfusion hret, fun hmem => absurd hmem (by simp)⟩
    · exact ⟨fun hret => Except.noConfusion hret, fun hmem => absurd hmem (by simp)⟩
  | some d =>
    rw [Streamer.download]
    dsimp only
    repeat' split
    all_goals first
      | exact ⟨fun hret => Except.noConfusion hret, fun hmem => absurd hmem (by simp)⟩
      | exact ⟨fun _ => ‹(env.http (download_url env chunk)).status = 200›,
          fun _ hne => absurd ‹(env.http (download_url env chunk)).status = 200› hne⟩
      | (refine ⟨fun hret => ?_, fun _ _ => rfl⟩
         injection hret with hret2
         exact Option.noConfusion hret2)

theorem c4_amended_witness :
    (Streamer.download (env0 404 [7]) fs0 chunkA (some "/w/out") 9).ret = .ok none :=
  (c4_amended_non200_returns_none (env0 404 [7]) fs0 chunkA (some "/w/out") 9).2
    (by decide) (by decide)

/-- Environment for the C1 evaluation: the server stores two distinct
shards, `h1` with bytes `[1, 2]` and `h2` with bytes `[3, 4]`. -/
def c1_env : Env :=
  ⟨"http://srv", "/cwd", "/home",
    fun u => if u = "http://srv/api/download/h1" then ⟨200, [1, 2]⟩ else ⟨200, [3, 4]⟩⟩

/-- Filesystem for the C1 evaluation: the destination directory exists and
the destination file does not. -/
def c1_fs : FS := ⟨[], ["/w"]⟩

/-- The second shard of the C1 evaluation. -/
def c1_chunk2 : Chunk := ⟨"h2", "h2", "", none⟩

/-- First download of the C1 round-trip attempt: shard `h1` to `/w/out`. -/
def c1_first : DownloadResult :=
  Streamer.download c1_env c1_fs chunkA (some "/w/out") 1024

/-- Second download of the C1 round-trip attempt: shard `h2` to the same
destination `/w/out`. -/
def c1_second : DownloadResult :=
  Streamer.download c1_env c1_first.fs c1_chunk2 (some "/w/out") 1024

/-- C1: evaluation of the code at the failing input.  Downloading two
shards of one file in order into the same destination does not concatenate
them: the first `Streamer.download` succeeds and writes the first shard's
bytes (in mode `wb`, not append), and the second raises
`FileError("/w/out already exists")` because the destination now exists,
leaving the file holding only the first shard's bytes — the original
`[1, 2, 3, 4]` stream is never reproduced. -/
theorem c1_second_download_to_same_dest_fails :
    c1_first.ret = .ok (some true)
    ∧ c1_first.fs.read "/w/out" = [1, 2]
    ∧ c1_second.ret = .error (.fileError "/w/out already exists")
    ∧ c1_second.fs = c1_first.fs
    ∧ c1_second.fs.read "/w/out" = [1, 2] :=
  ⟨rfl, rfl, rfl, rfl, rfl⟩
